import Mathlib

/-!
Shallow embedding of the snake game core from `src/game.rs` and `src/control.rs`
(bunburya/snakebit).  The hardware RNG is modelled as an explicit stream of
bytes (`List Nat`) carried inside the `Game` state; each call to
`rng.random_u8()` consumes one byte.  Rejection sampling (`Coords::random`)
recurses structurally on the remaining stream and returns `none` when the
stream is exhausted, so every operation that may place food is `Option`-valued.
The heapless `Queue<Coords, 32>` is modelled as a `List Coords` whose list head
is the front of the queue (the oldest tail segment, next to be vacated); the
`FnvIndexSet<Coords, 32>` is modelled as a `Finset Coords`.  Capacity limits
(32) are never reached on the 5x5 grid, and the `i8` coordinate fields never
leave the i8 range for any state considered here, so `Int` coordinates and
unbounded containers are faithful on the states the theorems speak about.
-/

/-- Number of rows in the grid (the LED matrix), from `game.rs`. -/
def N_ROWS : Nat := 5

/-- Number of columns in the grid, from `game.rs`. -/
def N_COLS : Nat := 5

/-- `Coords` from `game.rs`: signed row/col pair (signed so that projected
moves may be transiently out of bounds). -/
structure Coords where
  row : Int
  col : Int
deriving DecidableEq

/-- The byte-to-coordinate map used inside `Coords::random`:
`((rng.random_u8() as usize) % N_ROWS) as i8` for the row and likewise with
`N_COLS` for the column. -/
def drawCoords (b1 b2 : Nat) : Coords :=
  ⟨((b1 % N_ROWS : Nat) : Int), ((b2 % N_COLS : Nat) : Int)⟩

/-- `Coords::random` from `game.rs`: draw a coordinate from two random bytes;
while the draw is a member of the exclude set, redraw.  The byte stream is
explicit and the function returns the drawn coordinate together with the
unconsumed rest of the stream (`none` when the stream runs out, which models
an RNG that never yields an admissible draw).  The source's `exclude` is an
`Option<&CoordSet>`, but both call sites pass `Some(...)`, so the set is taken
directly. -/
def Coords.random : List Nat → Finset Coords → Option (Coords × List Nat)
  | b1 :: b2 :: rest, exclude =>
      let coords := drawCoords b1 b2
      if coords ∈ exclude then Coords.random rest exclude
      else some (coords, rest)
  | _, _ => none

/-- `Coords::is_out_of_bounds` from `game.rs`. -/
def Coords.is_out_of_bounds (c : Coords) : Bool :=
  decide (c.row < 0) || decide ((N_ROWS : Int) ≤ c.row) ||
  decide (c.col < 0) || decide ((N_COLS : Int) ≤ c.col)

/-- `Direction` from `game.rs`. -/
inductive Direction where
  | Up
  | Down
  | Left
  | Right
deriving DecidableEq

/-- `Turn` from `control.rs`. -/
inductive Turn where
  | Left
  | Right
  | None
deriving DecidableEq

/-- `GameStatus` from `game.rs`. -/
inductive GameStatus where
  | Won
  | Lost
  | Ongoing
deriving DecidableEq

/-- `StepOutcome` from `game.rs`. -/
inductive StepOutcome where
  | Full (c : Coords)
  | Collision (c : Coords)
  | OutOfBounds (c : Coords)
  | Eat (c : Coords)
  | Move (c : Coords)
deriving DecidableEq

/-- `Snake` from `game.rs`.  `tail` is the queue of body coordinates with the
end of the tail (oldest segment) at the front, i.e. at the head of the list;
`coord_set` is the set of all coordinates the snake believes it occupies. -/
structure Snake where
  head : Coords
  tail : List Coords
  coord_set : Finset Coords
  direction : Direction
deriving DecidableEq

/-- `Snake::new` from `game.rs`: head (2,2), one tail segment (2,1), moving
right, with both cells in the coord set. -/
def Snake.new : Snake :=
  { head := ⟨2, 2⟩
    tail := [⟨2, 1⟩]
    coord_set := {⟨2, 2⟩, ⟨2, 1⟩}
    direction := Direction.Right }

/-- `Snake::move_snake` from `game.rs`: enqueue the current head at the back
of the tail, move the head to `coords`, insert `coords` into the coord set;
if not extending, dequeue the rearmost tail cell and remove it from the coord
set.  The dequeue's `unwrap` cannot fail: the tail was just extended so it is
nonempty (the empty-list match arm below is dead code). -/
def Snake.move_snake (s : Snake) (coords : Coords) (extend : Bool) : Snake :=
  let tail := s.tail ++ [s.head]
  let coord_set := insert coords s.coord_set
  if !extend then
    match tail with
    | [] => { head := coords, tail := [], coord_set := coord_set, direction := s.direction }
    | back :: rest =>
        { head := coords
          tail := rest
          coord_set := coord_set.erase back
          direction := s.direction }
  else
    { head := coords, tail := tail, coord_set := coord_set, direction := s.direction }

/-- `Snake::turn_right` from `game.rs`. -/
def Snake.turn_right (s : Snake) : Snake :=
  { s with direction :=
      match s.direction with
      | Direction.Up => Direction.Right
      | Direction.Down => Direction.Left
      | Direction.Left => Direction.Up
      | Direction.Right => Direction.Down }

/-- `Snake::turn_left` from `game.rs`. -/
def Snake.turn_left (s : Snake) : Snake :=
  { s with direction :=
      match s.direction with
      | Direction.Up => Direction.Left
      | Direction.Down => Direction.Right
      | Direction.Left => Direction.Down
      | Direction.Right => Direction.Up }

/-- `Snake::turn` from `game.rs`. -/
def Snake.turn (s : Snake) (direction : Turn) : Snake :=
  match direction with
  | Turn.Left => s.turn_left
  | Turn.Right => s.turn_right
  | Turn.None => s

/-- `Game` from `game.rs`.  `rng` is the remaining stream of random bytes the
hardware RNG will produce.  `speed` and `score` are `u8` in the source. -/
structure Game where
  rng : List Nat
  snake : Snake
  food_coords : Coords
  speed : Nat
  status : GameStatus
  score : Nat
deriving DecidableEq

/-- `Game::new` from `game.rs`: fresh snake, food drawn at random excluding
the snake's coord set, speed 1, score 0, status Ongoing.  (The source also
builds a local `tail` set that it never uses; it is omitted.) -/
def Game.new (bytes : List Nat) : Option Game :=
  let snake := Snake.new
  match Coords.random bytes snake.coord_set with
  | some (food_coords, rest) =>
      some { rng := rest
             snake := snake
             food_coords := food_coords
             speed := 1
             status := GameStatus.Ongoing
             score := 0 }
  | none => none

/-- `Game::place_food` from `game.rs`: draw a random coordinate excluding the
snake's coord set and store it as the food coordinate.  (The source also
returns the coordinate; only the state update matters here.) -/
def Game.place_food (g : Game) : Option Game :=
  match Coords.random g.rng g.snake.coord_set with
  | some (coords, rest) => some { g with food_coords := coords, rng := rest }
  | none => none

/-- `Game::reset` from `game.rs`: fresh snake, new food (excluding the fresh
snake's cells), speed 1, status Ongoing, score 0; the byte stream continues
where it left off. -/
def Game.reset (g : Game) : Option Game :=
  let snake := Snake.new
  match Coords.random g.rng snake.coord_set with
  | some (food_coords, rest) =>
      some { rng := rest
             snake := snake
             food_coords := food_coords
             speed := 1
             status := GameStatus.Ongoing
             score := 0 }
  | none => none

/-- The projected next head coordinate computed at the top of
`Game::get_step_outcome`: current head plus the unit vector of the current
direction. -/
def Game.next_move (g : Game) : Coords :=
  let head := g.snake.head
  match g.snake.direction with
  | Direction.Up => ⟨head.row - 1, head.col⟩
  | Direction.Down => ⟨head.row + 1, head.col⟩
  | Direction.Left => ⟨head.row, head.col - 1⟩
  | Direction.Right => ⟨head.row, head.col + 1⟩

/-- `Game::get_step_outcome` from `game.rs`: out of bounds first; then, if the
projected cell is in the coord set, a collision unless it is exactly the front
of the tail queue (the cell about to be vacated); then food (Full when the
tail already has length 23, else Eat); otherwise a plain Move.  The source's
`tail.peek().unwrap()` is modelled with `List.head?`: on the (unreachable in
play) empty tail the source would panic where this returns Collision. -/
def Game.get_step_outcome (g : Game) : StepOutcome :=
  let next_move := g.next_move
  if next_move.is_out_of_bounds then StepOutcome.OutOfBounds next_move
  else if next_move ∈ g.snake.coord_set then
    if some next_move ≠ g.snake.tail.head? then StepOutcome.Collision next_move
    else StepOutcome.Move next_move
  else if next_move = g.food_coords then
    if g.snake.tail.length = 23 then StepOutcome.Full next_move
    else StepOutcome.Eat next_move
  else StepOutcome.Move next_move

/-- `Game::handle_step_outcome` from `game.rs`.  `u8` increments wrap at 256
(never reached in play: the score is bounded by the grid size). -/
def Game.handle_step_outcome (g : Game) (outcome : StepOutcome) : Option Game :=
  match outcome with
  | StepOutcome.OutOfBounds _ => some { g with status := GameStatus.Lost }
  | StepOutcome.Collision _ => some { g with status := GameStatus.Lost }
  | StepOutcome.Full _ => some { g with status := GameStatus.Won }
  | StepOutcome.Eat c =>
      let g1 := { g with snake := g.snake.move_snake c true }
      match g1.place_food with
      | some g2 =>
          let score := (g2.score + 1) % 256
          let speed := if score % 5 = 0 then (g2.speed + 1) % 256 else g2.speed
          some { g2 with score := score, speed := speed, status := GameStatus.Ongoing }
      | none => none
  | StepOutcome.Move c =>
      some { g with snake := g.snake.move_snake c false, status := GameStatus.Ongoing }

/-- `Game::step` from `game.rs`: apply the turn, classify, handle. -/
def Game.step (g : Game) (turn : Turn) : Option Game :=
  let g1 := { g with snake := g.snake.turn turn }
  g1.handle_step_outcome g1.get_step_outcome

/-- `Game::step_len_ms` from `game.rs`: `1000 - 200 * (speed as i32 - 1)`
computed in signed arithmetic, clamped below at 200, cast to `u32`. -/
def Game.step_len_ms (g : Game) : Nat :=
  (max (1000 - 200 * ((g.speed : Int) - 1)) 200).toNat

/-- Row-major cell update `values[r][c] = v` on a list-of-lists grid. -/
def setCell (values : List (List Nat)) (r c v : Nat) : List (List Nat) :=
  values.set r ((values.getD r []).set c v)

/-- Cell read `values[r][c]` on a list-of-lists grid. -/
def cell (values : List (List Nat)) (r c : Nat) : Nat :=
  (values.getD r []).getD c 0

/-- `Game::score_matrix` from `game.rs` (the method only reads `self.score`,
made an explicit argument here): start from an all-zero grid, fill the first
`score / N_COLS` rows with `brightness`, then the first `score % N_COLS` cells
of row `score / N_COLS`. -/
def score_matrix (score brightness : Nat) : List (List Nat) :=
  let values := List.replicate N_ROWS (List.replicate N_COLS 0)
  let full_rows := score / N_COLS
  let values :=
    (List.range full_rows).foldl
      (fun vs r => vs.set r (List.replicate N_COLS brightness)) values
  (List.range (score % N_COLS)).foldl
    (fun vs c => setCell vs full_rows c brightness) values

/-- The turn computation in the `GPIOTE` interrupt handler in `control.rs`:
`match (a_pressed, b_pressed)`. -/
def resolveTurn : Bool → Bool → Turn
  | false, false => Turn.None
  | true, false => Turn.Left
  | false, true => Turn.Right
  | true, true => Turn.None

/-- One iteration of the game loop in `main.rs` per list element: step only
while the status is Ongoing (the loop breaks on a terminal status and never
calls `step` on it). -/
def runSteps (g : Game) : List Turn → Option Game
  | [] => some g
  | t :: ts =>
      if g.status = GameStatus.Ongoing then
        match g.step t with
        | some g1 => runSteps g1 ts
        | none => none
      else none

/-- Reachable game states: a fresh game (for some RNG byte stream), a step
taken from a reachable Ongoing state (as the main loop does), or a reset of a
reachable state. -/
inductive Reachable : Game → Prop where
  | new (bytes : List Nat) (g : Game) : Game.new bytes = some g → Reachable g
  | step (g : Game) (t : Turn) (g1 : Game) : Reachable g →
      g.status = GameStatus.Ongoing → g.step t = some g1 → Reachable g1
  | reset (g g1 : Game) : Reachable g → g.reset = some g1 → Reachable g1

theorem reachable_runSteps :
    ∀ (ts : List Turn) (g g1 : Game), Reachable g → runSteps g ts = some g1 → Reachable g1
  | [], g, g1, hg, h => by
      simp only [runSteps, Option.some.injEq] at h
      exact h ▸ hg
  | t :: ts, g, g1, hg, h => by
      unfold runSteps at h
      by_cases hst : g.status = GameStatus.Ongoing
      · rw [if_pos hst] at h
        cases hstep : g.step t with
        | none => rw [hstep] at h; exact absurd h (by simp)
        | some g2 =>
            rw [hstep] at h
            exact reachable_runSteps ts g2 g1 (Reachable.step g t g2 hg hst hstep) h
      · rw [if_neg hst] at h; exact absurd h (by simp)

theorem reachable_of_chain (bytes : List Nat) (ts : List Turn) (g : Game)
    (h : (Game.new bytes).bind (fun g0 => runSteps g0 ts) = some g) : Reachable g := by
  cases hnew : Game.new bytes with
  | none => rw [hnew] at h; exact absurd h (by simp)
  | some g0 =>
      rw [hnew] at h
      exact reachable_runSteps ts g0 g (Reachable.new bytes g0 hnew) h

/-- A concrete RNG byte stream: the initial food draw lands on (2,3), the
draw after the first Eat on (2,4), after the second Eat on (1,3), and after
the third Eat on (2,3). -/
def trace_bytes : List Nat := [2, 3, 2, 4, 1, 3, 2, 3]

/-- The turns taken in the demonstration trace: eat twice moving right, then
three right turns so that the head loops back onto the cell the tail is about
to vacate. -/
def trace_turns : List Turn := [Turn.None, Turn.None, Turn.Right, Turn.Right, Turn.Right]

/-- C1: the claimed invariant `coord_set = {head} ∪ tail` fails on a reachable
Ongoing state.  After growing the snake to length 4 and steering it through a
Move step whose new head coordinate equals the tail cell vacated in the same
tick, `move_snake` first inserts the new head into the coord set and then
removes the dequeued back cell, which is that same coordinate, so the head
ends up missing from the coord set. -/
theorem coord_set_desync_reachable :
    ∃ g : Game, Reachable g ∧ g.status = GameStatus.Ongoing ∧
      g.snake.head ∉ g.snake.coord_set ∧
      g.snake.coord_set ≠ insert g.snake.head g.snake.tail.toFinset := by
  cases h : (Game.new trace_bytes).bind (fun g0 => runSteps g0 trace_turns) with
  | none => exact absurd h (by decide)
  | some g =>
      have hd : ((Game.new trace_bytes).bind (fun g0 => runSteps g0 trace_turns)).map
          (fun g => decide (g.status = GameStatus.Ongoing ∧ g.snake.head ∉ g.snake.coord_set ∧
            g.snake.coord_set ≠ insert g.snake.head g.snake.tail.toFinset)) = some true := by
        decide
      rw [h, Option.map_some'] at hd
      exact ⟨g, reachable_of_chain _ _ _ h, of_decide_eq_true (Option.some.inj hd)⟩

/-- C4: food can be placed on an occupied snake cell.  Extending the C1 trace
by one more Eat step: the coord set is missing a cell that is still part of
the snake's tail, `place_food` only excludes the coord set, and the RNG can
therefore hand back that occupied tail cell as the new food coordinate. -/
theorem food_placed_on_occupied_cell :
    ∃ g g1 : Game, Reachable g ∧ g.status = GameStatus.Ongoing ∧
      g.get_step_outcome = StepOutcome.Eat g1.snake.head ∧
      g.step Turn.None = some g1 ∧ g1.food_coords ∈ g1.snake.tail := by
  cases h : ((Game.new trace_bytes).bind (fun g0 => runSteps g0 trace_turns)).bind
      (fun g => (g.step Turn.None).map (fun g1 => (g, g1))) with
  | none => exact absurd h (by decide)
  | some p =>
      obtain ⟨a, ha, hmap⟩ := Option.bind_eq_some.mp h
      obtain ⟨b, hb, hpb⟩ := Option.map_eq_some'.mp hmap
      have hd : (((Game.new trace_bytes).bind (fun g0 => runSteps g0 trace_turns)).bind
          (fun g => (g.step Turn.None).map (fun g1 => (g, g1)))).map
          (fun p => decide (p.1.status = GameStatus.Ongoing ∧
            p.1.get_step_outcome = StepOutcome.Eat p.2.snake.head ∧
            p.2.food_coords ∈ p.2.snake.tail)) = some true := by decide
      rw [h, Option.map_some'] at hd
      have hp := of_decide_eq_true (Option.some.inj hd)
      subst hpb
      exact ⟨a, b, reachable_of_chain _ _ _ ha, hp.1, hp.2.1, hb, hp.2.2⟩

/-- C2: in an Ongoing state whose projected next head cell is in bounds and
inside the occupied set, the classification is Move when that cell is exactly
the front of the tail queue (the cell about to be vacated), and Collision
(with the step then setting the status to Lost) when it is any other occupied
cell. -/
theorem vacated_tail_move_not_collision (g : Game)
    (_hst : g.status = GameStatus.Ongoing)
    (hin : g.next_move.is_out_of_bounds = false)
    (hmem : g.next_move ∈ g.snake.coord_set) :
    (g.snake.tail.head? = some g.next_move → g.get_step_outcome = StepOutcome.Move g.next_move)
    ∧ (∀ t0 : Coords, g.snake.tail.head? = some t0 → g.next_move ≠ t0 →
        g.get_step_outcome = StepOutcome.Collision g.next_move
        ∧ g.step Turn.None = some { g with status := GameStatus.Lost }) := by
  constructor
  · intro hfront
    simp [Game.get_step_outcome, hin, hmem, hfront]
  · intro t0 hfront hne
    have ho : g.get_step_outcome = StepOutcome.Collision g.next_move := by
      simp [Game.get_step_outcome, hin, hmem, hfront, hne]
    refine ⟨ho, ?_⟩
    show g.handle_step_outcome g.get_step_outcome = some { g with status := GameStatus.Lost }
    rw [ho]; rfl

/-- A snake state whose projected next cell (2,3) is exactly the tail cell
about to be vacated. -/
def gameA : Game :=
  ⟨[], ⟨⟨2, 2⟩, [⟨2, 3⟩], {⟨2, 2⟩, ⟨2, 3⟩}, Direction.Right⟩, ⟨0, 0⟩, 1, GameStatus.Ongoing, 0⟩

/-- A snake state whose projected next cell (2,3) is occupied but is not the
tail cell about to be vacated. -/
def gameB : Game :=
  ⟨[], ⟨⟨2, 2⟩, [⟨1, 2⟩, ⟨2, 3⟩], {⟨2, 2⟩, ⟨1, 2⟩, ⟨2, 3⟩}, Direction.Right⟩, ⟨0, 0⟩, 1,
    GameStatus.Ongoing, 0⟩

/-- C2 witness: concrete instances of both classifications. -/
theorem vacated_tail_move_not_collision_witness :
    gameA.get_step_outcome = StepOutcome.Move gameA.next_move
    ∧ gameB.get_step_outcome = StepOutcome.Collision gameB.next_move :=
  ⟨(vacated_tail_move_not_collision gameA rfl (by decide) (by decide)).1 (by decide),
   ((vacated_tail_move_not_collision gameB rfl (by decide) (by decide)).2 ⟨1, 2⟩ (by decide)
      (by decide)).1⟩

/-- A game state that is already Lost.  Its snake is the starting snake, so a
step would project the head onto (2,3), a plain Move. -/
def gameLost : Game := ⟨[], Snake.new, ⟨0, 0⟩, 1, GameStatus.Lost, 0⟩

/-- C3 counterexample: `Game::step` on a terminal (Lost) state is not a no-op;
it turns, classifies and moves the snake exactly as in an Ongoing state, here
moving the head to (2,3) and even setting the status back to Ongoing. -/
theorem step_terminal_not_noop : gameLost.step Turn.None ≠ some gameLost := by decide

/-- C3 amended: `Game::step` never reads the status field, so its result is
identical whatever status the state carries; the terminal no-op is enforced
by the caller (the main loop steps only while the status is Ongoing), not by
`step` itself. -/
theorem step_ignores_status (g : Game) (t : Turn) (s1 s2 : GameStatus) :
    ({g with status := s1} : Game).step t = ({g with status := s2} : Game).step t := by
  have key : ∀ s : GameStatus, ({g with status := s} : Game).step t
      = Game.handle_step_outcome { g with snake := g.snake.turn t, status := s }
          (Game.get_step_outcome { g with snake := g.snake.turn t }) := fun _ => rfl
  rw [key s1, key s2]
  generalize Game.get_step_outcome { g with snake := g.snake.turn t } = o
  cases o with
  | Full c => rfl
  | Collision c => rfl
  | OutOfBounds c => rfl
  | Move c => rfl
  | Eat c =>
      simp only [Game.handle_step_outcome, Game.place_food]
      cases Coords.random g.rng ((g.snake.turn t).move_snake c true).coord_set with
      | none => rfl
      | some pr => rfl

/-- C5: for any speed in [1, 255], `step_len_ms` is exactly the clamped
signed-arithmetic formula max(200, 1000 - 200 * (speed - 1)), is never below
200, and is non-increasing in the speed. -/
theorem step_len_ms_spec (g : Game) (_h1 : 1 ≤ g.speed) (_h2 : g.speed ≤ 255) :
    ((g.step_len_ms : Int) = max 200 (1000 - 200 * ((g.speed : Int) - 1)))
    ∧ 200 ≤ g.step_len_ms
    ∧ ∀ g' : Game, g.speed ≤ g'.speed → g'.speed ≤ 255 → g'.step_len_ms ≤ g.step_len_ms := by
  unfold Game.step_len_ms
  refine ⟨?_, ?_, ?_⟩
  · rw [max_comm]
    exact Int.toNat_of_nonneg (le_trans (by norm_num) (le_max_left 200 _))
  · have h200 : (200 : Int) ≤ max (1000 - 200 * ((g.speed : Int) - 1)) 200 := le_max_right _ _
    omega
  · intro g' hg1 _hg2
    exact Int.toNat_le_toNat (max_le_max (by omega) (le_refl 200))

/-- A game whose speed field is the given value, used to instantiate the
timing theorem. -/
def mkSpeedGame (n : Nat) : Game := ⟨[], Snake.new, ⟨0, 0⟩, n, GameStatus.Ongoing, 0⟩

/-- C5 witness: the floor and the monotonicity at concrete speeds 1 and 6. -/
theorem step_len_ms_spec_witness :
    200 ≤ (mkSpeedGame 1).step_len_ms
    ∧ (mkSpeedGame 6).step_len_ms ≤ (mkSpeedGame 1).step_len_ms :=
  ⟨(step_len_ms_spec (mkSpeedGame 1) (by decide) (by decide)).2.1,
   (step_len_ms_spec (mkSpeedGame 1) (by decide) (by decide)).2.2 (mkSpeedGame 6) (by decide)
     (by decide)⟩

/-- C6: when the projected next cell is in bounds, not in the occupied set,
equals the food, and the tail already has length 23 (the grid-full maximum on
the 5x5 grid), the outcome is Full and the step only sets the status to Won:
the snake does not move and the food, RNG stream, score and speed are all
untouched, so no food replacement is ever attempted on the full grid. -/
theorem full_grid_won (g : Game)
    (_hst : g.status = GameStatus.Ongoing)
    (hin : g.next_move.is_out_of_bounds = false)
    (hnot : g.next_move ∉ g.snake.coord_set)
    (hfood : g.next_move = g.food_coords)
    (hlen : g.snake.tail.length = 23) :
    g.get_step_outcome = StepOutcome.Full g.next_move
    ∧ g.step Turn.None = some { g with status := GameStatus.Won } := by
  have ho : g.get_step_outcome = StepOutcome.Full g.next_move := by
    simp only [Game.get_step_outcome]
    rw [if_neg (by simp [hin]), if_neg hnot, if_pos hfood, if_pos hlen]
  refine ⟨ho, ?_⟩
  show g.handle_step_outcome g.get_step_outcome = some { g with status := GameStatus.Won }
  rw [ho]; rfl

/-- A 24-cell snake (head plus 23 tail segments) laid out as a serpentine
over the 5x5 grid, with the single free cell (4,4) holding the food and the
head at (4,3) about to move onto it. -/
def fullGridGame : Game :=
  ⟨[],
    ⟨⟨4, 3⟩,
      [⟨0, 0⟩, ⟨0, 1⟩, ⟨0, 2⟩, ⟨0, 3⟩, ⟨0, 4⟩, ⟨1, 4⟩, ⟨1, 3⟩, ⟨1, 2⟩, ⟨1, 1⟩, ⟨1, 0⟩,
       ⟨2, 0⟩, ⟨2, 1⟩, ⟨2, 2⟩, ⟨2, 3⟩, ⟨2, 4⟩, ⟨3, 4⟩, ⟨3, 3⟩, ⟨3, 2⟩, ⟨3, 1⟩, ⟨3, 0⟩,
       ⟨4, 0⟩, ⟨4, 1⟩, ⟨4, 2⟩],
      {⟨0, 0⟩, ⟨0, 1⟩, ⟨0, 2⟩, ⟨0, 3⟩, ⟨0, 4⟩, ⟨1, 4⟩, ⟨1, 3⟩, ⟨1, 2⟩, ⟨1, 1⟩, ⟨1, 0⟩,
       ⟨2, 0⟩, ⟨2, 1⟩, ⟨2, 2⟩, ⟨2, 3⟩, ⟨2, 4⟩, ⟨3, 4⟩, ⟨3, 3⟩, ⟨3, 2⟩, ⟨3, 1⟩, ⟨3, 0⟩,
       ⟨4, 0⟩, ⟨4, 1⟩, ⟨4, 2⟩, ⟨4, 3⟩},
      Direction.Right⟩,
    ⟨4, 4⟩, 5, GameStatus.Ongoing, 22⟩

/-- C6 witness: the grid-full Won classification on the concrete full-grid
state. -/
theorem full_grid_won_witness :
    fullGridGame.get_step_outcome = StepOutcome.Full fullGridGame.next_move
    ∧ fullGridGame.step Turn.None = some { fullGridGame with status := GameStatus.Won } :=
  full_grid_won fullGridGame rfl (by decide) (by decide) (by decide) (by decide)

/-- C7 counterexample: the byte-to-coordinate map `byte % 5` is not uniform:
row value 0 has 52 of the 256 byte preimages while row value 1 has 51, so the
number of byte preimages is not the same for every row value. -/
theorem draw_bias_counterexample :
    ((Finset.range 256).filter (fun b => (drawCoords b 0).row = 0)).card
      ≠ ((Finset.range 256).filter (fun b => (drawCoords b 0).row = 1)).card := by decide

/-- Rejection sampling never returns a member of the exclude set: whatever
byte stream is supplied, if `Coords::random` returns a coordinate it is
outside the exclude set. -/
theorem random_not_mem : ∀ (bytes : List Nat) (exclude : Finset Coords) (c : Coords)
    (rest : List Nat), Coords.random bytes exclude = some (c, rest) → c ∉ exclude
  | b1 :: b2 :: bs, exclude, c, rest, h => by
      simp only [Coords.random] at h
      by_cases hmem : drawCoords b1 b2 ∈ exclude
      · rw [if_pos hmem] at h
        exact random_not_mem bs exclude c rest h
      · rw [if_neg hmem] at h
        simp only [Option.some.injEq, Prod.mk.injEq] at h
        exact h.1 ▸ hmem
  | [], _, _, _, h => by simp [Coords.random] at h
  | [_], _, _, _, h => by simp [Coords.random] at h

/-- C7 amended: `Coords::random` never returns a member of the exclude set,
and the byte-to-coordinate map `byte % 5` is only approximately uniform: in
each dimension, value 0 has 52 of the 256 byte preimages while values 1 to 4
have 51 each (modulo bias), so the draw is not exactly uniform. -/
theorem random_bias_and_exclusion :
    (((Finset.range 256).filter (fun b => (drawCoords b 0).row = 0)).card = 52
      ∧ ((Finset.range 256).filter (fun b => (drawCoords b 0).row = 1)).card = 51
      ∧ ((Finset.range 256).filter (fun b => (drawCoords b 0).row = 2)).card = 51
      ∧ ((Finset.range 256).filter (fun b => (drawCoords b 0).row = 3)).card = 51
      ∧ ((Finset.range 256).filter (fun b => (drawCoords b 0).row = 4)).card = 51)
    ∧ (((Finset.range 256).filter (fun b => (drawCoords 0 b).col = 0)).card = 52
      ∧ ((Finset.range 256).filter (fun b => (drawCoords 0 b).col = 1)).card = 51
      ∧ ((Finset.range 256).filter (fun b => (drawCoords 0 b).col = 2)).card = 51
      ∧ ((Finset.range 256).filter (fun b => (drawCoords 0 b).col = 3)).card = 51
      ∧ ((Finset.range 256).filter (fun b => (drawCoords 0 b).col = 4)).card = 51)
    ∧ ∀ (bytes : List Nat) (exclude : Finset Coords) (c : Coords) (rest : List Nat),
        Coords.random bytes exclude = some (c, rest) → c ∉ exclude :=
  ⟨⟨by decide, by decide, by decide, by decide, by decide⟩,
   ⟨by decide, by decide, by decide, by decide, by decide⟩,
   random_not_mem⟩

/-- C7 witness: a concrete draw avoiding a concrete exclude set. -/
theorem random_bias_and_exclusion_witness :
    (⟨2, 3⟩ : Coords) ∉ ({⟨0, 0⟩} : Finset Coords) :=
  random_bias_and_exclusion.2.2 [2, 3] {⟨0, 0⟩} ⟨2, 3⟩ [] (by decide)

set_option maxHeartbeats 2000000 in
/-- C8: for every score up to 25 and every brightness level, the score matrix
lights the first `score / N_COLS` rows fully, then the first `score % N_COLS`
cells of the next row left to right, and leaves every other cell zero. -/
theorem score_matrix_cells (score brightness r c : Nat)
    (hs : score ≤ 25) (hr : r < 5) (hc : c < 5) :
    cell (score_matrix score brightness) r c =
      if r < score / N_COLS then brightness
      else if r = score / N_COLS ∧ c < score % N_COLS then brightness
      else 0 := by
  interval_cases score <;> interval_cases r <;> interval_cases c <;> rfl

/-- C8 witness: score 7 yields one fully lit row plus two lit cells at the
start of the next row, the rest dark. -/
theorem score_matrix_cells_witness :
    cell (score_matrix 7 9) 0 4 = 9 ∧ cell (score_matrix 7 9) 1 0 = 9
    ∧ cell (score_matrix 7 9) 1 1 = 9 ∧ cell (score_matrix 7 9) 1 2 = 0
    ∧ cell (score_matrix 7 9) 2 0 = 0 :=
  ⟨(score_matrix_cells 7 9 0 4 (by decide) (by decide) (by decide)).trans (by decide),
   (score_matrix_cells 7 9 1 0 (by decide) (by decide) (by decide)).trans (by decide),
   (score_matrix_cells 7 9 1 1 (by decide) (by decide) (by decide)).trans (by decide),
   (score_matrix_cells 7 9 1 2 (by decide) (by decide) (by decide)).trans (by decide),
   (score_matrix_cells 7 9 2 0 (by decide) (by decide) (by decide)).trans (by decide)⟩

/-- C9: the interrupt handler's turn table maps (false,false) to None,
(true,false) to Left, (false,true) to Right and (true,true) to None, and a
both-pressed resolution leaves the snake's heading unchanged. -/
theorem resolve_turn_table :
    resolveTurn false false = Turn.None ∧ resolveTurn true false = Turn.Left
    ∧ resolveTurn false true = Turn.Right ∧ resolveTurn true true = Turn.None
    ∧ ∀ s : Snake, (s.turn (resolveTurn true true)).direction = s.direction :=
  ⟨rfl, rfl, rfl, rfl, fun _ => rfl⟩

/-- C10: when the post-turn classification is OutOfBounds, Collision or Full,
the step changes only the status field (besides the heading set by the turn):
the snake's head, tail and coord set, the food, the RNG stream, the score and
the speed are all left as they were. -/
theorem terminal_outcome_frame (g : Game) (t : Turn)
    (_hst : g.status = GameStatus.Ongoing)
    (h : ∃ c : Coords,
        ({g with snake := g.snake.turn t} : Game).get_step_outcome = StepOutcome.OutOfBounds c
      ∨ ({g with snake := g.snake.turn t} : Game).get_step_outcome = StepOutcome.Collision c
      ∨ ({g with snake := g.snake.turn t} : Game).get_step_outcome = StepOutcome.Full c) :
    ∃ st : GameStatus,
      g.step t = some { g with snake := g.snake.turn t, status := st } := by
  obtain ⟨c, hc | hc | hc⟩ := h
  · refine ⟨GameStatus.Lost, ?_⟩
    show ({g with snake := g.snake.turn t} : Game).handle_step_outcome
        (({g with snake := g.snake.turn t} : Game).get_step_outcome) = _
    rw [hc]; rfl
  · refine ⟨GameStatus.Lost, ?_⟩
    show ({g with snake := g.snake.turn t} : Game).handle_step_outcome
        (({g with snake := g.snake.turn t} : Game).get_step_outcome) = _
    rw [hc]; rfl
  · refine ⟨GameStatus.Won, ?_⟩
    show ({g with snake := g.snake.turn t} : Game).handle_step_outcome
        (({g with snake := g.snake.turn t} : Game).get_step_outcome) = _
    rw [hc]; rfl

/-- A snake at the right edge heading Right, so the projected next cell is
out of bounds. -/
def gameC : Game :=
  ⟨[], ⟨⟨2, 4⟩, [⟨2, 3⟩], {⟨2, 4⟩, ⟨2, 3⟩}, Direction.Right⟩, ⟨0, 0⟩, 1, GameStatus.Ongoing, 0⟩

/-- C10 witness: an out-of-bounds step on a concrete state changes only the
status. -/
theorem terminal_outcome_frame_witness :
    ∃ st : GameStatus,
      gameC.step Turn.None = some { gameC with snake := gameC.snake.turn Turn.None, status := st } :=
  terminal_outcome_frame gameC Turn.None rfl ⟨⟨2, 5⟩, Or.inl (by decide)⟩
